import Mathlib

-- Verification of the giggityflix screenshot coordination service.
--
-- The embedding models the three core collaborating services of the
-- repository (src/services/redis_service.py, src/services/token_service.py,
-- src/services/screenshot_service.py) and the HTTP token dependency of
-- src/api/routes.py.  Time is modelled as integer seconds (Int); the Redis
-- backing store is modelled as a function from key strings to stored values
-- together with an absolute expiry timestamp, matching Redis SETEX / EXPIRE /
-- HSET semantics for the sequential traces considered here.  JSON
-- serialisation of a pending request round-trips in the source
-- (model_dump_json followed by a field-wise parse), so entries are stored
-- directly.  JWT signing (python-jose, one configured algorithm and key) is
-- modelled by a constructor carrying the payload and the signing key:
-- decoding succeeds exactly when the keys agree and the token is not yet
-- expired, the three failure modes of jose (unparseable token, bad
-- signature, expired signature) being the JWTError cases caught by the
-- source.

namespace Screenshot

-- ## Data model (src/models.py)

/-- Blacklist reasons, from models.TokenBlacklistReason. -/
inductive TokenBlacklistReason where
  | ALREADY_USED
  | OTHER_PEER_UPLOADED
  | EXPIRED
deriving DecidableEq

/-- String value of a blacklist reason (the str Enum value in models.py). -/
def TokenBlacklistReason.value : TokenBlacklistReason → String
  | TokenBlacklistReason.ALREADY_USED => "already_used"
  | TokenBlacklistReason.OTHER_PEER_UPLOADED => "other_peer_uploaded"
  | TokenBlacklistReason.EXPIRED => "expired"

/-- Partial inverse of TokenBlacklistReason.value; the Python enum
constructor raises ValueError on an unknown string, modelled as none. -/
def TokenBlacklistReason.ofValue : String → Option TokenBlacklistReason
  | "already_used" => some TokenBlacklistReason.ALREADY_USED
  | "other_peer_uploaded" => some TokenBlacklistReason.OTHER_PEER_UPLOADED
  | "expired" => some TokenBlacklistReason.EXPIRED
  | _ => none

/-- models.ScreenshotRequest; created_at and expires_at are timestamps in
seconds, expires_at optional as in the pydantic model. -/
structure ScreenshotRequest where
  catalog_id : String
  request_id : String
  requester_service : String
  created_at : Int
  expires_at : Option Int
deriving DecidableEq

/-- models.TokenPayload; exp is the JWT expiry timestamp in seconds. -/
structure TokenPayload where
  peer_id : String
  catalog_id : String
  request_id : String
  token_id : String
  exp : Int
deriving DecidableEq

/-- models.PeerWithMedia. -/
structure PeerWithMedia where
  peer_id : String
  edge_id : String
  catalog_ids : List String
deriving DecidableEq

-- ## JWT layer (python-jose as used by src/services/token_service.py)

/-- The three JWTError modes of jose relevant to the source: a token that
does not parse, a signature made with another key, and an expired exp
claim. -/
inductive JWTError where
  | unparseable
  | badSignature
  | expiredSignature
deriving DecidableEq

/-- An encoded JWT: either a well-formed token signed with some key and
carrying a payload, or an arbitrary non-JWT string. -/
inductive Token where
  | signed (payload : TokenPayload) (key : String)
  | malformed (raw : String)
deriving DecidableEq

/-- models.ScreenshotTokenInfo as returned by TokenService.create_token. -/
structure ScreenshotTokenInfo where
  token : Token
  peer_id : String
  catalog_id : String
  request_id : String
  token_id : String
deriving DecidableEq

/-- jose jwt.decode with the configured key: verifies the signature, then
the exp claim (jose treats exp strictly less than now as expired), and
returns the decoded payload. -/
def jwtDecode (t : Token) (key : String) (now : Int) : Except JWTError TokenPayload :=
  match t with
  | Token.malformed _ => Except.error JWTError.unparseable
  | Token.signed p k =>
    if k = key then
      if p.exp < now then Except.error JWTError.expiredSignature
      else Except.ok p
    else Except.error JWTError.badSignature

/-- The unverified-decode attempt of routes.validate_token: the source
calls jose jwt.decode(token, options with verify_signature False) WITHOUT
the key argument that python-jose requires positionally, so the call
raises TypeError on every input; the bare except swallows the error and
token_id stays None.  The token argument is kept so the definition mirrors
the call site. -/
def decodeUnverifiedTokenId (_t : Token) : Option String := none

-- ## Redis store model

/-- A Redis keyspace fragment: each key maps to a stored value together
with an optional absolute expiry timestamp. -/
def Store (α : Type) : Type := String → Option α

/-- The empty keyspace. -/
def emptyStore {α : Type} : Store α := fun _ => none

/-- Overwrite one key (Redis SET / SETEX semantics: an existing value and
its TTL are replaced). -/
def storeSet {α : Type} (st : Store α) (key : String) (v : α) : Store α :=
  fun k => if k = key then some v else st k

/-- Delete one key. -/
def storeDel {α : Type} (st : Store α) (key : String) : Store α :=
  fun k => if k = key then none else st k

-- ## Config constants (src/config.py defaults)

/-- RedisConfig.token_blacklist_prefix default. -/
def blacklistKeyBase : String := "screenshot:token:blacklist:"

/-- RedisConfig.pending_requests_prefix default. -/
def pendingKeyBase : String := "screenshot:pending:"

/-- JWTConfig: the signing key and the token expiry window in minutes. -/
structure JWTConfig where
  secret_key : String
  token_expire_minutes : Int
deriving DecidableEq

-- ## TokenService (src/services/token_service.py)

/-- The token blacklist keyspace: key is blacklistKeyBase ++ token_id, the
value the reason string, paired with the absolute expiry set by SETEX. -/
def Blacklist : Type := Store (String × Int)

/-- Redis EXISTS on a key with a TTL: present until its expiry passes. -/
def redisExists (bl : Blacklist) (key : String) (now : Int) : Bool :=
  match bl key with
  | some entry => now < entry.2
  | none => false

/-- Redis GET on a key with a TTL: the stored string until expiry. -/
def redisGet (bl : Blacklist) (key : String) (now : Int) : Option String :=
  match bl key with
  | some entry => if now < entry.2 then some entry.1 else none
  | none => none

/-- TokenService.create_token: mints token_id (a fresh uuid4, passed here
as an argument), sets exp to now plus the configured window, and signs the
payload with the configured key. -/
def create_token (cfg : JWTConfig) (token_id : String) (now : Int)
    (peer_id : String) (catalog_id : String) (request_id : String) : ScreenshotTokenInfo :=
  let expire : Int := now + cfg.token_expire_minutes * 60
  let payload : TokenPayload := TokenPayload.mk peer_id catalog_id request_id token_id expire
  ScreenshotTokenInfo.mk (Token.signed payload cfg.secret_key) peer_id catalog_id request_id token_id

/-- TokenService.validate_token: decode the JWT (any JWTError yields None),
then return None if the token_id is blacklisted, else the payload. -/
def validate_token (cfg : JWTConfig) (bl : Blacklist) (now : Int) (t : Token) : Option TokenPayload :=
  match jwtDecode t cfg.secret_key now with
  | Except.error _ => none
  | Except.ok p =>
    if redisExists bl (blacklistKeyBase ++ p.token_id) now then none
    else some p

/-- TokenService.blacklist_token: SETEX of the reason value under the
blacklist key with a TTL of ttl_hours hours (default 24 at the call sites). -/
def blacklist_token (bl : Blacklist) (now : Int) (token_id : String)
    (reason : TokenBlacklistReason) (ttl_hours : Int) : Blacklist :=
  storeSet bl (blacklistKeyBase ++ token_id) (reason.value, now + ttl_hours * 3600)

/-- TokenService.get_blacklist_reason: GET the reason value; a missing (or
falsy empty) value yields None, otherwise the enum constructor is applied. -/
def get_blacklist_reason (bl : Blacklist) (now : Int) (token_id : String) : Option TokenBlacklistReason :=
  match redisGet bl (blacklistKeyBase ++ token_id) now with
  | some v => if v = "" then none else TokenBlacklistReason.ofValue v
  | none => none

-- ## RedisService: the pending-request ledger (src/services/redis_service.py)

/-- One Redis hash bucket holding the pending requests of one catalog:
field request_id maps to the stored (JSON round-tripped) request; expiry is
the absolute key TTL set by EXPIRE, none when the key has no TTL. -/
structure Bucket where
  entries : List (String × ScreenshotRequest)
  expiry : Option Int
deriving DecidableEq

/-- The ledger keyspace: pendingKeyBase ++ catalog_id maps to a bucket. -/
def Ledger : Type := Store Bucket

/-- The empty ledger. -/
def emptyLedger : Ledger := emptyStore

/-- HSET one field of a hash: an existing field is overwritten in place, a
new field is appended in insertion order. -/
def hsetEntry : List (String × ScreenshotRequest) → String → ScreenshotRequest → List (String × ScreenshotRequest)
  | [], rid, v => [(rid, v)]
  | e :: es, rid, v => if e.1 = rid then (rid, v) :: es else e :: hsetEntry es rid v

/-- HSET on the keyspace: a missing key becomes a fresh hash with no TTL. -/
def ledgerHset (L : Ledger) (key : String) (rid : String) (v : ScreenshotRequest) : Ledger :=
  match L key with
  | some b => storeSet L key (Bucket.mk (hsetEntry b.entries rid v) b.expiry)
  | none => storeSet L key (Bucket.mk [(rid, v)] none)

/-- EXPIRE on the keyspace: overwrites the TTL of an existing key (Redis
EXPIRE without NX/GT flags replaces any previous TTL); no-op when the key
is absent. -/
def ledgerExpire (L : Ledger) (key : String) (t : Int) : Ledger :=
  match L key with
  | some b => storeSet L key (Bucket.mk b.entries (some t))
  | none => L

/-- HDEL one field; Redis removes a hash key once its last field is gone. -/
def ledgerHdel (L : Ledger) (key : String) (rid : String) : Ledger :=
  match L key with
  | some b =>
    let remaining := b.entries.filter (fun e => e.1 != rid)
    if remaining.isEmpty then storeDel L key
    else storeSet L key (Bucket.mk remaining b.expiry)
  | none => L

/-- Lookup the expiry of a catalog bucket. -/
def bucketExpiry (L : Ledger) (key : String) : Option Int :=
  match L key with
  | some b => b.expiry
  | none => none

/-- Lookup one stored field of a catalog bucket. -/
def entryFind : List (String × ScreenshotRequest) → String → Option ScreenshotRequest
  | [], _ => none
  | e :: es, rid => if e.1 = rid then some e.2 else entryFind es rid

/-- Lookup one stored request of a catalog bucket by request_id. -/
def entryLookup (L : Ledger) (key : String) (rid : String) : Option ScreenshotRequest :=
  match L key with
  | some b => entryFind b.entries rid
  | none => none

/-- RedisService.add_pending_request: default a missing expires_at to
created_at plus the configured TTL, then store the entry in its catalog
bucket and EXPIRE the bucket, but only when the remaining TTL in seconds is
still positive; otherwise nothing is written. -/
def add_pending_request (ttl_hours : Int) (now : Int) (req : ScreenshotRequest) (L : Ledger) : Ledger :=
  let expiresAt : Int :=
    match req.expires_at with
    | none => req.created_at + ttl_hours * 3600
    | some e => e
  let stored : ScreenshotRequest :=
    ScreenshotRequest.mk req.catalog_id req.request_id req.requester_service req.created_at (some expiresAt)
  let catalogKey : String := pendingKeyBase ++ req.catalog_id
  let ttlSeconds : Int := expiresAt - now
  if ttlSeconds > 0 then
    ledgerExpire (ledgerHset L catalogKey req.request_id stored) catalogKey (now + ttlSeconds)
  else L

/-- The values of a hash in field insertion order (HGETALL followed by the
JSON parse loop of get_pending_requests). -/
def entryValues : List (String × ScreenshotRequest) → List ScreenshotRequest
  | [] => []
  | e :: es => e.2 :: entryValues es

/-- RedisService.get_pending_requests: HGETALL of the catalog bucket; a key
whose TTL has passed is gone. -/
def get_pending_requests (L : Ledger) (now : Int) (catalog_id : String) : List ScreenshotRequest :=
  match L (pendingKeyBase ++ catalog_id) with
  | some b =>
    match b.expiry with
    | some t => if now < t then entryValues b.entries else []
    | none => entryValues b.entries
  | none => []

/-- RedisService.remove_pending_request: HDEL of one request_id field. -/
def remove_pending_request (L : Ledger) (catalog_id : String) (request_id : String) : Ledger :=
  ledgerHdel L (pendingKeyBase ++ catalog_id) request_id

-- ## ScreenshotService (src/services/screenshot_service.py)

/-- The observable calls process_screenshot_upload makes to its
collaborators, in program order. -/
inductive Event where
  | blacklistTok (token_id : String) (reason : TokenBlacklistReason)
  | storageUpload (catalog_id : String) (file_data : String) (content_type : String)
  | siblingDiscovery (peer_ids : List String)
  | removePending (catalog_id : String) (request_id : String)
  | publishCompleted (catalog_id : String) (request_id : String) (urls : List String)
deriving DecidableEq

/-- The StorageService collaborator: upload_screenshot returns the object
name, get_screenshot_url the presigned URL; none models the S3Error paths
that the source re-raises as RuntimeError. -/
structure StorageModel where
  upload_screenshot : String → String → String → Option String
  get_screenshot_url : String → Option String

/-- The mutable backing state the engine touches during a redemption: the
token blacklist, the pending-request ledger, and the completed events
published to Kafka. -/
structure ServiceState where
  blacklist : Blacklist
  ledger : Ledger
  published : List (String × String × List String)

/-- Result of process_screenshot_upload: the new backing state, the URL
list it returns, and the ordered collaborator-call trace. -/
structure UploadOutcome where
  state : ServiceState
  urls : List String
  trace : List Event

/-- The per-file upload loop of process_screenshot_upload: for each
(file, content_type) pair the storage upload is attempted; when either the
upload or the URL fetch fails the exception is logged and the file is
skipped, otherwise its URL is appended.  Returns the storage-call events
and the collected URLs. -/
def uploadLoop (storage : StorageModel) (catalog_id : String) :
    List (String × String) → List Event × List String
  | [] => ([], [])
  | p :: rest =>
    let res : Option String :=
      (storage.upload_screenshot catalog_id p.1 p.2).bind storage.get_screenshot_url
    let next := uploadLoop storage catalog_id rest
    match res with
    | some url => (Event.storageUpload catalog_id p.1 p.2 :: next.1, url :: next.2)
    | none => (Event.storageUpload catalog_id p.1 p.2 :: next.1, next.2)

/-- The discovery loop of _blacklist_other_tokens: every peer of the
directory response whose peer_id differs from the redeeming peer is logged
as a blacklist candidate, but no token of any of them is looked up or
blacklisted (the body is a stub). -/
def otherPeersLoop (pid : String) : List PeerWithMedia → List String
  | [] => []
  | p :: rest =>
    if p.peer_id != pid then p.peer_id :: otherPeersLoop pid rest
    else otherPeersLoop pid rest

/-- ScreenshotService._blacklist_other_tokens: queries the peer registry
for the catalog (none models a non-200 response or a raised exception,
both of which end the call after logging); on success it only logs the
other peers and changes no state. -/
def blacklist_other_tokens (peersResp : Option (List PeerWithMedia)) (tp : TokenPayload) : List String :=
  match peersResp with
  | some peers => otherPeersLoop tp.peer_id peers
  | none => []

/-- ScreenshotService.process_screenshot_upload: blacklist the redeeming
token (reason ALREADY_USED, default 24 hour TTL), upload each file
best-effort, run the sibling-token stub, HDEL the ledger entry, and publish
screenshots.completed with the collected URLs, which are also returned. -/
def process_screenshot_upload (storage : StorageModel) (peersResp : Option (List PeerWithMedia))
    (now : Int) (st : ServiceState) (tp : TokenPayload)
    (files : List String) (ctypes : List String) : UploadOutcome :=
  let bl2 : Blacklist := blacklist_token st.blacklist now tp.token_id TokenBlacklistReason.ALREADY_USED 24
  let pairs : List (String × String) := files.zip ctypes
  let up := uploadLoop storage tp.catalog_id pairs
  let logged : List String := blacklist_other_tokens peersResp tp
  let ledger2 : Ledger := remove_pending_request st.ledger tp.catalog_id tp.request_id
  UploadOutcome.mk
    (ServiceState.mk bl2 ledger2 (st.published ++ [(tp.catalog_id, tp.request_id, up.2)]))
    up.2
    (Event.blacklistTok tp.token_id TokenBlacklistReason.ALREADY_USED ::
      (up.1 ++
        (Event.siblingDiscovery logged ::
          (Event.removePending tp.catalog_id tp.request_id ::
            [Event.publishCompleted tp.catalog_id tp.request_id up.2]))))

/-- The scope of one minted upload token: the (peer, catalog, request)
triple passed to TokenService.create_token. -/
structure TokenScope where
  peer_id : String
  catalog_id : String
  request_id : String
deriving DecidableEq

/-- The loop of _request_screenshots_from_peer: one token is minted (and
one edge invite dispatched) per catalog_id in the peer object it was
handed, each scoped to that catalog_id and the request of the call. -/
def mintLoop (pid : String) (rid : String) : List String → List TokenScope
  | [] => []
  | cid :: rest => TokenScope.mk pid cid rid :: mintLoop pid rid rest

/-- ScreenshotService._request_screenshots_from_peer, projected to the
token scopes it mints. -/
def request_screenshots_from_peer_mints (peer : PeerWithMedia) (request : ScreenshotRequest) : List TokenScope :=
  mintLoop peer.peer_id request.request_id peer.catalog_ids

/-- The peer loop of handle_screenshot_request over the directory
response. -/
def peersLoop (request : ScreenshotRequest) : List PeerWithMedia → List TokenScope
  | [] => []
  | p :: rest => request_screenshots_from_peer_mints p request ++ peersLoop request rest

/-- ScreenshotService.handle_screenshot_request: store the pending request,
then invite every peer of the directory response (an empty response, also
the directory-failure case, invites nobody).  Returns the new ledger and
the scopes of all minted tokens. -/
def handle_screenshot_request (ttl_hours : Int) (now : Int) (L : Ledger)
    (request : ScreenshotRequest) (peers : List PeerWithMedia) : Ledger × List TokenScope :=
  (add_pending_request ttl_hours now request L, peersLoop request peers)

/-- The inner request loop of handle_peer_available: each pending request
of one catalog is answered by inviting a single-catalog copy of the
offering peer. -/
def pendingLoop (pid : String) (eid : String) (cid : String) : List ScreenshotRequest → List TokenScope
  | [] => []
  | r :: rest =>
    request_screenshots_from_peer_mints (PeerWithMedia.mk pid eid [cid]) r ++ pendingLoop pid eid cid rest

/-- The catalog loop of handle_peer_available over the catalog_ids of the
offer. -/
def offerLoop (now : Int) (L : Ledger) (pid : String) (eid : String) : List String → List TokenScope
  | [] => []
  | cid :: rest => pendingLoop pid eid cid (get_pending_requests L now cid) ++ offerLoop now L pid eid rest

/-- ScreenshotService.handle_peer_available, projected to the scopes of
all tokens it mints. -/
def handle_peer_available_mints (now : Int) (L : Ledger) (peer : PeerWithMedia) : List TokenScope :=
  offerLoop now L peer.peer_id peer.edge_id peer.catalog_ids

-- ## API token dependency (src/api/routes.py)

/-- What routes.validate_token can produce: a raised HTTPException, a
returned JSONResponse object (note: a return, not a raise), or the decoded
token payload. -/
inductive DepResult where
  | httpError (statusCode : Nat) (detail : String)
  | jsonResponse (statusCode : Nat) (message : String) (detail : String)
  | payload (tp : TokenPayload)
deriving DecidableEq

/-- An Authorization header: either it does not start with the Bearer
marker, or it carries a bearer token. -/
inductive AuthHeader where
  | noBearerMarker (raw : String)
  | bearer (t : Token)
deriving DecidableEq

/-- routes.validate_token, the FastAPI dependency of the upload route:
reject a header without the Bearer marker with HTTP 401; otherwise run
TokenService.validate_token, and on failure try to read the token_id
without signature verification and look up the blacklist reason, with a
JSONResponse 403 object written for ALREADY_USED and OTHER_PEER_UPLOADED
and HTTP 401 raised in every other case.  Because the unverified decode
always fails (see decodeUnverifiedTokenId), the JSONResponse branch is
dead code and every validation failure ends in the HTTP 401 raise, as in
the program. -/
def api_validate_token (cfg : JWTConfig) (bl : Blacklist) (now : Int)
    (authorization : AuthHeader) : DepResult :=
  match authorization with
  | AuthHeader.noBearerMarker _ => DepResult.httpError 401 "Invalid authorization header"
  | AuthHeader.bearer token =>
    match validate_token cfg bl now token with
    | some tp => DepResult.payload tp
    | none =>
      match decodeUnverifiedTokenId token with
      | some tokenId =>
        if tokenId = "" then DepResult.httpError 401 "Invalid or expired token"
        else
          match get_blacklist_reason bl now tokenId with
          | some TokenBlacklistReason.ALREADY_USED =>
            DepResult.jsonResponse 403 "Token has already been used"
              "This upload token has already been used"
          | some TokenBlacklistReason.OTHER_PEER_UPLOADED =>
            DepResult.jsonResponse 403 "Screenshots already uploaded"
              "Another peer has already uploaded screenshots for this catalog ID"
          | _ => DepResult.httpError 401 "Invalid or expired token"
      | none => DepResult.httpError 401 "Invalid or expired token"

-- ## Concrete instances used by witnesses and counterexamples

/-- A concrete JWT config. -/
def cfgEx : JWTConfig := JWTConfig.mk "secret" 30

/-- A concrete token payload with token_id t1, unexpired at time 0. -/
def payloadEx : TokenPayload := TokenPayload.mk "p1" "c1" "r1" "t1" 50

/-- A blacklist holding exactly token t1 with reason already_used until
time 100. -/
def blEx : Blacklist := storeSet emptyStore (blacklistKeyBase ++ "t1") ("already_used", 100)

/-- A storage collaborator that fails on the file named bad and otherwise
produces a deterministic object name and URL. -/
def storageEx : StorageModel :=
  StorageModel.mk
    (fun cid fd _ => if fd = "bad" then none else some (cid ++ "/" ++ fd ++ ".jpg"))
    (fun objectName => some ("https://minio/" ++ objectName))

/-- An initial backing state with an empty blacklist, an empty ledger and
nothing published. -/
def stEx : ServiceState := ServiceState.mk emptyStore emptyLedger []

/-- A directory response naming one peer other than the redeemer of
payloadEx. -/
def peerP2 : PeerWithMedia := PeerWithMedia.mk "p2" "e2" ["c1"]

/-- A concrete pending request for catalog c1 created at 0, expiring at 100. -/
def reqEx : ScreenshotRequest := ScreenshotRequest.mk "c1" "r1" "svc" 0 (some 100)

/-- The same request with expiry 50, for the TTL-overwrite counterexample. -/
def reqEx50 : ScreenshotRequest := ScreenshotRequest.mk "c1" "r2" "svc" 0 (some 50)

/-- A request whose caller-supplied expires_at lies before its created_at
but after the add time. -/
def reqBackdated : ScreenshotRequest := ScreenshotRequest.mk "c1" "r1" "svc" 100 (some 50)

-- ## Helper lemmas about the store model

theorem storeSet_same {α : Type} (st : Store α) (k : String) (v : α) :
    storeSet st k v k = some v := by
  unfold storeSet
  simp

theorem storeSet_other {α : Type} (st : Store α) (k : String) (k2 : String) (v : α)
    (h : k2 ≠ k) : storeSet st k v k2 = st k2 := by
  unfold storeSet
  simp [h]

theorem entryFind_hsetEntry (rid : String) (v : ScreenshotRequest) :
    ∀ es : List (String × ScreenshotRequest), entryFind (hsetEntry es rid v) rid = some v := by
  intro es
  induction es with
  | nil => simp [hsetEntry, entryFind]
  | cons e es ih =>
    by_cases h : e.1 = rid
    · simp [hsetEntry, entryFind, h]
    · simp [hsetEntry, entryFind, h, ih]

theorem bucketExpiry_hset_expire (L : Ledger) (k : String) (rid : String)
    (v : ScreenshotRequest) (t : Int) :
    bucketExpiry (ledgerExpire (ledgerHset L k rid v) k t) k = some t := by
  unfold bucketExpiry ledgerExpire ledgerHset
  cases h : L k <;> simp [h, storeSet_same]

theorem entryLookup_hset_expire (L : Ledger) (k : String) (rid : String)
    (v : ScreenshotRequest) (t : Int) :
    entryLookup (ledgerExpire (ledgerHset L k rid v) k t) k rid = some v := by
  unfold entryLookup ledgerExpire ledgerHset
  cases h : L k <;> simp [h, storeSet_same, entryFind_hsetEntry, entryFind]

-- ## Claim C3: bucket TTL on repeated adds

/-- C3 counterexample: two sequential adds for catalog c1 at time 0, the
first with remaining TTL 100, the second with remaining TTL 50, leave the
bucket expiry at 50, not at the larger TTL 100: the second add shortened
the survival window of the first entry. -/
theorem c3_counterexample_second_add_shortens_ttl :
    bucketExpiry (add_pending_request 24 0 reqEx50 (add_pending_request 24 0 reqEx emptyLedger))
        (pendingKeyBase ++ "c1") = some 50
    ∧ max (100 : Int) 50 = 100 ∧ ((50 : Int) ≠ 100) := by
  exact ⟨rfl, rfl, by decide⟩

/-- C3 (amended): after two sequential adds for the same catalog whose
entries are still unexpired at their add times, the bucket expiry equals
the expiry of the SECOND add (Redis EXPIRE overwrites the TTL), so an add
with a shorter remaining TTL shortens the bucket survival window rather
than keeping the maximum. -/
theorem c3_second_add_overwrites_bucket_expiry (ttlh now1 now2 e1 e2 : Int) (L : Ledger)
    (r1 r2 : ScreenshotRequest)
    (hc : r2.catalog_id = r1.catalog_id)
    (_he1 : r1.expires_at = some e1) (he2 : r2.expires_at = some e2)
    (_h1 : now1 < e1) (h2 : now2 < e2) :
    bucketExpiry (add_pending_request ttlh now2 r2 (add_pending_request ttlh now1 r1 L))
        (pendingKeyBase ++ r1.catalog_id) = some e2 := by
  rw [← hc]
  simp only [add_pending_request, he2]
  have hpos : e2 - now2 > 0 := by omega
  rw [if_pos hpos]
  have harith : now2 + (e2 - now2) = e2 := by omega
  rw [harith]
  exact bucketExpiry_hset_expire _ _ _ _ _

/-- C3 witness: at the concrete inputs of the counterexample the amended
theorem yields bucket expiry 50, the expiry of the second add. -/
theorem c3_second_add_overwrites_bucket_expiry_witness :
    bucketExpiry (add_pending_request 24 0 reqEx50 (add_pending_request 24 0 reqEx emptyLedger))
        (pendingKeyBase ++ "c1") = some 50 :=
  c3_second_add_overwrites_bucket_expiry 24 0 0 100 50 emptyLedger reqEx reqEx50
    rfl rfl rfl (by decide) (by decide)

-- ## Claim C6: add of an already-expired request is a no-op

/-- C6: add_pending_request with a caller-supplied expires_at at or before
now writes nothing: the whole ledger keyspace, in particular the bucket of
that catalog, is returned unchanged, with no new entry and no TTL change. -/
theorem c6_expired_add_is_noop (ttlh now e : Int) (L : Ledger) (r : ScreenshotRequest)
    (he : r.expires_at = some e) (hpast : e ≤ now) :
    add_pending_request ttlh now r L = L := by
  simp only [add_pending_request, he]
  have h : ¬ (e - now > 0) := by omega
  rw [if_neg h]

/-- C6 witness: adding reqEx (expiry 100) at time 200 leaves the empty
ledger untouched. -/
theorem c6_expired_add_is_noop_witness :
    add_pending_request 24 200 reqEx emptyLedger = emptyLedger :=
  c6_expired_add_is_noop 24 200 100 emptyLedger reqEx rfl (by decide)

-- ## Claim C9: expires_at versus created_at of stored entries

/-- C9 counterexample: a request created at 100 with caller-supplied
expires_at 50 is accepted by add_pending_request at time 0 (its TTL is
still positive) and stored with expires_at 50, which is NOT greater than
its created_at 100: the invariant fails for caller-supplied expiries. -/
theorem c9_counterexample_backdated_entry_stored :
    entryLookup (add_pending_request 24 0 reqBackdated emptyLedger) (pendingKeyBase ++ "c1") "r1"
        = some (ScreenshotRequest.mk "c1" "r1" "svc" 100 (some 50))
    ∧ ¬ ((50 : Int) > 100) := by
  exact ⟨rfl, by decide⟩

/-- C9 (amended): an entry stored with a COMPUTED expires_at (input
expires_at absent) satisfies expires_at greater than created_at whenever
the configured TTL is positive; an entry stored with a caller-supplied
expires_at is only guaranteed to have its expires_at in the future of the
add time, not after its created_at. -/
theorem c9_stored_entry_expiry_bounds (ttlh now : Int) (L : Ledger) (r : ScreenshotRequest) :
    (r.expires_at = none → 0 < ttlh → now < r.created_at + ttlh * 3600 →
      entryLookup (add_pending_request ttlh now r L) (pendingKeyBase ++ r.catalog_id) r.request_id
          = some (ScreenshotRequest.mk r.catalog_id r.request_id r.requester_service r.created_at
              (some (r.created_at + ttlh * 3600)))
        ∧ r.created_at < r.created_at + ttlh * 3600)
    ∧ (∀ e : Int, r.expires_at = some e → now < e →
      entryLookup (add_pending_request ttlh now r L) (pendingKeyBase ++ r.catalog_id) r.request_id
          = some (ScreenshotRequest.mk r.catalog_id r.request_id r.requester_service r.created_at (some e))) := by
  constructor
  · intro hnone httl hfresh
    constructor
    · simp only [add_pending_request, hnone]
      have hpos : r.created_at + ttlh * 3600 - now > 0 := by omega
      rw [if_pos hpos]
      exact entryLookup_hset_expire _ _ _ _ _
    · omega
  · intro e hsome hfut
    simp only [add_pending_request, hsome]
    have hpos : e - now > 0 := by omega
    rw [if_pos hpos]
    exact entryLookup_hset_expire _ _ _ _ _

-- ## Helper lemmas about the token blacklist

theorem reasonValue_ne_empty (r : TokenBlacklistReason) : r.value ≠ "" := by
  cases r <;> decide

theorem ofValue_value (r : TokenBlacklistReason) :
    TokenBlacklistReason.ofValue r.value = some r := by
  cases r <;> rfl

theorem validate_after_blacklist (cfg : JWTConfig) (bl : Blacklist) (now : Int) (now2 : Int)
    (tid : String) (reason : TokenBlacklistReason) (ttlh : Int)
    (hlive : now2 < now + ttlh * 3600) :
    ∀ (p : TokenPayload) (k : String), p.token_id = tid →
      validate_token cfg (blacklist_token bl now tid reason ttlh) now2 (Token.signed p k) = none := by
  intro p k hp
  have hbl : redisExists (blacklist_token bl now tid reason ttlh) (blacklistKeyBase ++ p.token_id) now2 = true := by
    unfold redisExists blacklist_token
    rw [hp, storeSet_same]
    simpa using hlive
  by_cases hk : k = cfg.secret_key
  · by_cases hexp : p.exp < now2
    · simp [validate_token, jwtDecode, hk, hexp]
    · simp [validate_token, jwtDecode, hk, hexp, hbl]
  · simp [validate_token, jwtDecode, hk]

theorem reason_after_blacklist (bl : Blacklist) (now : Int) (now2 : Int)
    (tid : String) (reason : TokenBlacklistReason) (ttlh : Int)
    (hlive : now2 < now + ttlh * 3600) :
    get_blacklist_reason (blacklist_token bl now tid reason ttlh) now2 tid = some reason := by
  unfold get_blacklist_reason redisGet blacklist_token
  rw [storeSet_same]
  simp only [if_pos hlive]
  rw [if_neg (reasonValue_ne_empty reason)]
  exact ofValue_value reason

-- ## Claim C5: a freshly issued token validates

/-- C5: for any peer, catalog and request identifiers, validating the token
minted by create_token at the time of issuance, with a positive configured
expiry window and no blacklist entry under the fresh token_id, succeeds and
returns a payload whose peer_id, catalog_id, request_id and token_id equal
those of issuance. -/
theorem c5_issue_then_validate (cfg : JWTConfig) (bl : Blacklist) (now : Int)
    (tid : String) (pid : String) (cid : String) (rid : String)
    (hmin : 0 < cfg.token_expire_minutes)
    (hbl : bl (blacklistKeyBase ++ tid) = none) :
    validate_token cfg bl now (create_token cfg tid now pid cid rid).token
      = some (TokenPayload.mk pid cid rid tid (now + cfg.token_expire_minutes * 60)) := by
  have hexp : ¬ (now + cfg.token_expire_minutes * 60 < now) := by omega
  have hbl2 : redisExists bl (blacklistKeyBase ++ tid) now = false := by
    unfold redisExists
    rw [hbl]
  simp [create_token, validate_token, jwtDecode, hexp, hbl2]

/-- C5 witness: a concrete issuance under cfgEx against the empty blacklist
validates to its own payload. -/
theorem c5_issue_then_validate_witness :
    validate_token cfgEx emptyStore 0 (create_token cfgEx "t9" 0 "p1" "c1" "r1").token
      = some (TokenPayload.mk "p1" "c1" "r1" "t9" 1800) :=
  c5_issue_then_validate cfgEx emptyStore 0 "t9" "p1" "c1" "r1" (by decide) rfl

-- ## Claim C4: shape of validation failures and blacklist override

/-- C4 counterexample: with token t1 blacklisted (reason already_used), a
structurally malformed token and a correctly signed, unexpired token
carrying t1 both make validate_token return the bare None: the result
carries no reason and cannot distinguish an unparseable token from a
blacklisted one; the third conjunct checks that the second token decodes
cleanly, so its rejection is due to the blacklist alone. -/
theorem c4_counterexample_invalid_results_indistinguishable :
    validate_token cfgEx blEx 0 (Token.malformed "zz") = none
    ∧ validate_token cfgEx blEx 0 (Token.signed payloadEx "secret") = none
    ∧ jwtDecode (Token.signed payloadEx "secret") cfgEx.secret_key 0 = Except.ok payloadEx := by
  exact ⟨rfl, rfl, rfl⟩

/-- C4 (amended): validate_token returns either the decoded payload or the
reasonless None; after blacklist_token(token_id, reason, ttl), any token
carrying that token_id validates to None within the blacklist TTL window
regardless of its signature or expiry validity, as does any malformed
token, and the reason is recoverable separately through
get_blacklist_reason, which returns exactly the stored reason. -/
theorem c4_blacklist_forces_none_and_reason_lookup (cfg : JWTConfig) (bl : Blacklist)
    (now : Int) (now2 : Int) (tid : String) (reason : TokenBlacklistReason) (ttlh : Int)
    (hlive : now2 < now + ttlh * 3600) :
    (∀ (p : TokenPayload) (k : String), p.token_id = tid →
      validate_token cfg (blacklist_token bl now tid reason ttlh) now2 (Token.signed p k) = none)
    ∧ (∀ s : String,
      validate_token cfg (blacklist_token bl now tid reason ttlh) now2 (Token.malformed s) = none)
    ∧ get_blacklist_reason (blacklist_token bl now tid reason ttlh) now2 tid = some reason := by
  refine ⟨validate_after_blacklist cfg bl now now2 tid reason ttlh hlive, ?_, ?_⟩
  · intro s
    rfl
  · exact reason_after_blacklist bl now now2 tid reason ttlh hlive

/-- C4 witness: blacklisting t1 at time 0 with reason other_peer_uploaded
for 24 hours makes a validly signed, unexpired token carrying t1 validate
to None at time 10, while get_blacklist_reason still reports the reason. -/
theorem c4_blacklist_forces_none_and_reason_lookup_witness :
    validate_token cfgEx (blacklist_token emptyStore 0 "t1" TokenBlacklistReason.OTHER_PEER_UPLOADED 24) 10
        (Token.signed payloadEx "secret") = none
    ∧ get_blacklist_reason (blacklist_token emptyStore 0 "t1" TokenBlacklistReason.OTHER_PEER_UPLOADED 24) 10 "t1"
        = some TokenBlacklistReason.OTHER_PEER_UPLOADED :=
  ⟨(c4_blacklist_forces_none_and_reason_lookup cfgEx emptyStore 0 10 "t1"
      TokenBlacklistReason.OTHER_PEER_UPLOADED 24 (by decide)).1 payloadEx "secret" rfl,
    (c4_blacklist_forces_none_and_reason_lookup cfgEx emptyStore 0 10 "t1"
      TokenBlacklistReason.OTHER_PEER_UPLOADED 24 (by decide)).2.2⟩

-- ## Helper lemmas about the upload loop

theorem uploadLoop_events (storage : StorageModel) (cid : String) :
    ∀ pairs : List (String × String),
      (uploadLoop storage cid pairs).1 = pairs.map (fun p => Event.storageUpload cid p.1 p.2) := by
  intro pairs
  induction pairs with
  | nil => rfl
  | cons p rest ih =>
    unfold uploadLoop
    cases (storage.upload_screenshot cid p.1 p.2).bind storage.get_screenshot_url <;>
      simp [ih]

theorem uploadLoop_urls (storage : StorageModel) (cid : String) :
    ∀ pairs : List (String × String),
      (uploadLoop storage cid pairs).2 =
        pairs.filterMap (fun p => (storage.upload_screenshot cid p.1 p.2).bind storage.get_screenshot_url) := by
  intro pairs
  induction pairs with
  | nil => rfl
  | cons p rest ih =>
    unfold uploadLoop
    cases h : (storage.upload_screenshot cid p.1 p.2).bind storage.get_screenshot_url <;>
      simp [h, ih]

theorem otherPeersLoop_spec (pid : String) :
    ∀ peers : List PeerWithMedia,
      otherPeersLoop pid peers = (peers.filter (fun p => p.peer_id != pid)).map (fun p => p.peer_id) := by
  intro peers
  induction peers with
  | nil => rfl
  | cons p rest ih =>
    by_cases h : p.peer_id = pid
    · simp [otherPeersLoop, List.filter, h, ih]
    · have hb : (p.peer_id != pid) = true := by simp [h]
      simp [otherPeersLoop, List.filter, h, hb, ih]

-- ## Claim C1: the redeeming token is retired first

/-- C1: process_screenshot_upload blacklists the redeeming token_id with
reason ALREADY_USED as its very first collaborator call, before any storage
upload; in the resulting state, within the 24 hour blacklist TTL, any
signed token carrying that token_id fails validation (so a second
validation or redemption attempt of the same token is rejected), and the
recorded reason is ALREADY_USED. -/
theorem c1_redeeming_token_blacklisted_before_uploads (cfg : JWTConfig) (storage : StorageModel)
    (peersResp : Option (List PeerWithMedia)) (now : Int) (st : ServiceState) (tp : TokenPayload)
    (files : List String) (ctypes : List String) :
    (∃ rest : List Event,
      (process_screenshot_upload storage peersResp now st tp files ctypes).trace
        = Event.blacklistTok tp.token_id TokenBlacklistReason.ALREADY_USED :: rest)
    ∧ (∀ (p : TokenPayload) (k : String) (now2 : Int),
        p.token_id = tp.token_id → now2 < now + 24 * 3600 →
        validate_token cfg (process_screenshot_upload storage peersResp now st tp files ctypes).state.blacklist
            now2 (Token.signed p k) = none)
    ∧ (∀ now2 : Int, now2 < now + 24 * 3600 →
        get_blacklist_reason (process_screenshot_upload storage peersResp now st tp files ctypes).state.blacklist
            now2 tp.token_id = some TokenBlacklistReason.ALREADY_USED) := by
  refine ⟨⟨_, rfl⟩, ?_, ?_⟩
  · intro p k now2 hp hwin
    exact validate_after_blacklist cfg st.blacklist now now2 tp.token_id
      TokenBlacklistReason.ALREADY_USED 24 hwin p k hp
  · intro now2 hwin
    exact reason_after_blacklist st.blacklist now now2 tp.token_id
      TokenBlacklistReason.ALREADY_USED 24 hwin

-- ## Claim C2: sibling-token invalidation is a stub

/-- C2 counterexample: a concrete winning redemption by peer p1 holding
token t1, with the peer registry reporting another peer p2 for the same
catalog and a sibling token t2 conceptually issued to p2, ends with
nothing blacklisted but t1: the sibling token t2 is not blacklisted at all
(in particular not with reason OTHER_PEER_UPLOADED), even though the stub
logged p2 as the peer whose token it would blacklist. -/
theorem c2_counterexample_sibling_token_not_blacklisted :
    redisExists
        (process_screenshot_upload storageEx (some [peerP2]) 0 stEx payloadEx ["f1"] ["image/jpeg"]).state.blacklist
        (blacklistKeyBase ++ "t2") 1 = false
    ∧ get_blacklist_reason
        (process_screenshot_upload storageEx (some [peerP2]) 0 stEx payloadEx ["f1"] ["image/jpeg"]).state.blacklist
        1 "t2" = none
    ∧ get_blacklist_reason
        (process_screenshot_upload storageEx (some [peerP2]) 0 stEx payloadEx ["f1"] ["image/jpeg"]).state.blacklist
        1 "t1" = some TokenBlacklistReason.ALREADY_USED
    ∧ blacklist_other_tokens (some [peerP2]) payloadEx = ["p2"] := by
  exact ⟨rfl, rfl, rfl, rfl⟩

/-- C2 (amended): on a winning redemption the engine runs
_blacklist_other_tokens before removing the ledger entry and publishing
completion, and that call discovers the other peers of the catalog (every
directory peer whose peer_id differs from the redeemer), but it is a stub
that blacklists none of their tokens: the blacklist of the final state
changed only by the redeeming token_id (reason ALREADY_USED), the trace
placing the discovery before the removal and the publication. -/
theorem c2_sibling_invalidation_is_stub (storage : StorageModel) (peers : List PeerWithMedia)
    (now : Int) (st : ServiceState) (tp : TokenPayload)
    (files : List String) (ctypes : List String) :
    (process_screenshot_upload storage (some peers) now st tp files ctypes).state.blacklist
        = blacklist_token st.blacklist now tp.token_id TokenBlacklistReason.ALREADY_USED 24
    ∧ blacklist_other_tokens (some peers) tp
        = (peers.filter (fun p => p.peer_id != tp.peer_id)).map (fun p => p.peer_id)
    ∧ (∃ pre : List Event,
        (process_screenshot_upload storage (some peers) now st tp files ctypes).trace
          = pre ++
            (Event.siblingDiscovery (blacklist_other_tokens (some peers) tp) ::
              (Event.removePending tp.catalog_id tp.request_id ::
                [Event.publishCompleted tp.catalog_id tp.request_id
                  (process_screenshot_upload storage (some peers) now st tp files ctypes).urls]))) := by
  refine ⟨rfl, otherPeersLoop_spec tp.peer_id peers, ?_⟩
  exact ⟨Event.blacklistTok tp.token_id TokenBlacklistReason.ALREADY_USED ::
    (uploadLoop storage tp.catalog_id (files.zip ctypes)).1, rfl⟩

-- ## Claim C7: per-file upload failures do not abort the batch

/-- C7: for every redemption, each (file, content_type) pair of the batch
gets its own storage upload call regardless of the outcome of earlier
files; the returned URL list is exactly the list of URLs of the pairs
whose upload pipeline succeeded, in order; and the ledger-entry removal
and the completion publication still happen carrying exactly that URL
list. -/
theorem c7_partial_upload_failure_tolerated (storage : StorageModel)
    (peersResp : Option (List PeerWithMedia)) (now : Int) (st : ServiceState) (tp : TokenPayload)
    (files : List String) (ctypes : List String) :
    (process_screenshot_upload storage peersResp now st tp files ctypes).urls
        = (files.zip ctypes).filterMap
            (fun p => (storage.upload_screenshot tp.catalog_id p.1 p.2).bind storage.get_screenshot_url)
    ∧ (∀ p ∈ files.zip ctypes,
        Event.storageUpload tp.catalog_id p.1 p.2
          ∈ (process_screenshot_upload storage peersResp now st tp files ctypes).trace)
    ∧ Event.removePending tp.catalog_id tp.request_id
        ∈ (process_screenshot_upload storage peersResp now st tp files ctypes).trace
    ∧ (process_screenshot_upload storage peersResp now st tp files ctypes).state.ledger
        = remove_pending_request st.ledger tp.catalog_id tp.request_id
    ∧ (tp.catalog_id, tp.request_id,
        (process_screenshot_upload storage peersResp now st tp files ctypes).urls)
        ∈ (process_screenshot_upload storage peersResp now st tp files ctypes).state.published := by
  refine ⟨uploadLoop_urls storage tp.catalog_id (files.zip ctypes), ?_, ?_, rfl, ?_⟩
  · intro p hp
    have hev : Event.storageUpload tp.catalog_id p.1 p.2
        ∈ (uploadLoop storage tp.catalog_id (files.zip ctypes)).1 := by
      rw [uploadLoop_events]
      exact List.mem_map_of_mem _ hp
    simp [process_screenshot_upload, hev]
  · simp [process_screenshot_upload]
  · simp [process_screenshot_upload]

-- ## Helper lemmas about the invite loops

theorem mintLoop_spec (pid : String) (rid : String) :
    ∀ cids : List String, mintLoop pid rid cids = cids.map (fun cid => TokenScope.mk pid cid rid) := by
  intro cids
  induction cids with
  | nil => rfl
  | cons cid rest ih => simp [mintLoop, ih]

theorem pendingLoop_spec (pid : String) (eid : String) (cid : String) :
    ∀ reqs : List ScreenshotRequest,
      pendingLoop pid eid cid reqs = reqs.map (fun r => TokenScope.mk pid cid r.request_id) := by
  intro reqs
  induction reqs with
  | nil => rfl
  | cons r rest ih =>
    simp [pendingLoop, request_screenshots_from_peer_mints, mintLoop, ih]

theorem peersLoop_spec (request : ScreenshotRequest) :
    ∀ peers : List PeerWithMedia,
      peersLoop request peers
        = peers.flatMap (fun p => p.catalog_ids.map (fun cid => TokenScope.mk p.peer_id cid request.request_id)) := by
  intro peers
  induction peers with
  | nil => rfl
  | cons p rest ih =>
    simp [peersLoop, request_screenshots_from_peer_mints, mintLoop_spec, ih]

-- ## Claim C8: token scoping of invited peers

/-- C8 counterexample: a request for catalog c1 handled while the
directory reports one peer whose entry lists catalogs c1 and c2 mints TWO
tokens for that single (peer, request) pair, the second scoped to catalog
c2, which is not the catalog the request is for. -/
theorem c8_counterexample_token_minted_for_other_catalog :
    (handle_screenshot_request 24 0 emptyLedger reqEx [PeerWithMedia.mk "p1" "e1" ["c1", "c2"]]).2
        = [TokenScope.mk "p1" "c1" "r1", TokenScope.mk "p1" "c2" "r1"]
    ∧ reqEx.catalog_id = "c1"
    ∧ ("c2" : String) ≠ "c1" := by
  exact ⟨rfl, rfl, by decide⟩

/-- C8 (amended): on the peer-available path, an offer naming one catalog
mints exactly one token per pending request of that catalog, scoped to
(peer_id, that catalog_id, request_id); on the request path, one token is
minted per catalog_id listed in each directory peer entry, scoped to
(peer_id, that listed catalog_id, request.request_id), so a peer entry
listing catalogs beyond the requested one also gets tokens for those. -/
theorem c8_minted_token_scopes (now : Int) (ttlh : Int) (L : Ledger)
    (pid : String) (eid : String) (c : String)
    (request : ScreenshotRequest) (peers : List PeerWithMedia) :
    handle_peer_available_mints now L (PeerWithMedia.mk pid eid [c])
        = (get_pending_requests L now c).map (fun r => TokenScope.mk pid c r.request_id)
    ∧ (handle_screenshot_request ttlh now L request peers).2
        = peers.flatMap (fun p => p.catalog_ids.map (fun cid => TokenScope.mk p.peer_id cid request.request_id)) := by
  constructor
  · simp [handle_peer_available_mints, offerLoop, pendingLoop_spec]
  · exact peersLoop_spec request peers

-- ## Claim C10: what the upload-route token dependency can produce

/-- C10: for every configuration, blacklist state, time and authorization
header, routes.validate_token either raises an HTTPException (always with
status 401) or returns the decoded TokenPayload; its JSONResponse branch
is unreachable because the unverified token_id extraction always fails in
the program (keyless jwt.decode, TypeError swallowed by the bare except).
In particular a token whose token_id is blacklisted never makes the
dependency hand a non-TokenPayload value to upload_screenshots: the second
conjunct evaluates the dependency at a correctly signed, unexpired token
whose token_id t1 is blacklisted as already_used and obtains the HTTP 401
raise. -/
theorem c10_dependency_raises_or_returns_payload (cfg : JWTConfig) (bl : Blacklist)
    (now : Int) (authorization : AuthHeader) :
    ((∃ d : String, api_validate_token cfg bl now authorization = DepResult.httpError 401 d)
      ∨ (∃ tp : TokenPayload, api_validate_token cfg bl now authorization = DepResult.payload tp))
    ∧ api_validate_token cfgEx blEx 0 (AuthHeader.bearer (Token.signed payloadEx "secret"))
        = DepResult.httpError 401 "Invalid or expired token" := by
  constructor
  · cases authorization with
    | noBearerMarker raw => exact Or.inl ⟨"Invalid authorization header", rfl⟩
    | bearer token =>
      cases h : validate_token cfg bl now token with
      | some tp => exact Or.inr ⟨tp, by simp [api_validate_token, h]⟩
      | none =>
        exact Or.inl ⟨"Invalid or expired token",
          by simp [api_validate_token, h, decodeUnverifiedTokenId]⟩
  · rfl

end Screenshot
